import Mathlib

/-!
Shallow embedding of the dual-target IC50 classification pipeline
(`IC50Predictor` and the `load_data_dat` / `load_data_net` loaders).
Numeric scores are rationals; label vectors are lists of booleans;
the external numeric library (model fitting and prediction) is passed
in as opaque function parameters where a method calls it.
-/

/- ## Classification metrics (sklearn.metrics semantics) -/

/-- Number of true positives: positions where both the true label and the
predicted class are positive (`y_true` and `y_pred` zipped positionally). -/
def countTP (y p : List Bool) : Nat :=
  (y.zip p).countP (fun ab => ab.1 && ab.2)

/-- Number of predicted positives in a predicted class vector. -/
def countPP (p : List Bool) : Nat :=
  p.countP (fun b => b)

/-- Number of actual positives in a true label vector. -/
def countAP (y : List Bool) : Nat :=
  y.countP (fun b => b)

/-- `sklearn.metrics.precision_score` on binary class vectors: TP / (TP + FP),
returning 0 (with a warning, default zero division handling) when there are
no predicted positives. -/
def precision_score (y p : List Bool) : ℚ :=
  if countPP p = 0 then 0 else (countTP y p : ℚ) / (countPP p : ℚ)

/-- `sklearn.metrics.recall_score` on binary class vectors: TP / (TP + FN),
returning 0 when there are no actual positives. -/
def recall_score (y p : List Bool) : ℚ :=
  if countAP y = 0 then 0 else (countTP y p : ℚ) / (countAP y : ℚ)

/-- Thresholding of predicted probabilities, `(y_pred > 0.5).astype(int)`. -/
def threshold05 (probs : List ℚ) : List Bool :=
  probs.map (fun q => decide ((1 : ℚ) / 2 < q))

/-- `np.mean` of a list of rationals (sum divided by length). -/
def listMean (l : List ℚ) : ℚ :=
  l.sum / (l.length : ℚ)

/- ## The cross-validation objective (`IC50Predictor.objective`, lines 52-74)

Per fold, the loop body produces the held-out labels for each target and the
model's predicted probability column for each target; it thresholds at 0.5 and
takes the per-target precision.  The model's fit/predict calls are external,
so a fold is embedded by the data the metric computations consume. -/

/-- One iteration of the fold loop of `IC50Predictor.objective`: the held-out
labels `y_val_dat`, `y_val_net` and the predicted probability columns
`model.predict(x_val_dat)[:, 0]` and `model.predict(x_val_net)[:, 1]`. -/
structure FoldEval where
  yValDat : List Bool
  yValNet : List Bool
  predProbDat : List ℚ
  predProbNet : List ℚ
deriving DecidableEq

/-- `score_dat = precision_score(y_val_dat, (y_pred_dat > 0.5).astype(int))`. -/
def foldScoreDat (f : FoldEval) : ℚ :=
  precision_score f.yValDat (threshold05 f.predProbDat)

/-- `score_net = precision_score(y_val_net, (y_pred_net > 0.5).astype(int))`. -/
def foldScoreNet (f : FoldEval) : ℚ :=
  precision_score f.yValNet (threshold05 f.predProbNet)

/-- The value returned by `IC50Predictor.objective`:
`np.mean(scores_dat + scores_net)`, i.e. the mean of the concatenation of the
per-fold DAT precision list with the per-fold NET precision list. -/
def objectiveReturn (folds : List FoldEval) : ℚ :=
  listMean (folds.map foldScoreDat ++ folds.map foldScoreNet)

/- ## Metric bounds -/

theorem countTP_le_countPP : ∀ (y p : List Bool), countTP y p ≤ countPP p := by
  intro y
  induction y with
  | nil =>
    intro p
    simp [countTP, countPP]
  | cons a ys ih =>
    intro p
    cases p with
    | nil => simp [countTP]
    | cons b ps =>
      have h := ih ps
      cases a <;> cases b <;>
        simp [countTP, countPP, List.countP_cons] at * <;> omega

theorem countTP_le_countAP : ∀ (y p : List Bool), countTP y p ≤ countAP y := by
  intro y
  induction y with
  | nil =>
    intro p
    simp [countTP, countAP]
  | cons a ys ih =>
    intro p
    cases p with
    | nil => simp [countTP, countAP]
    | cons b ps =>
      have h := ih ps
      cases a <;> cases b <;>
        simp [countTP, countAP, List.countP_cons] at * <;> omega

theorem precision_score_nonneg (y p : List Bool) : 0 ≤ precision_score y p := by
  unfold precision_score
  split
  · exact le_refl 0
  · positivity

theorem precision_score_le_one (y p : List Bool) : precision_score y p ≤ 1 := by
  unfold precision_score
  split
  · exact zero_le_one
  · rename_i h
    have hle : (countTP y p : ℚ) ≤ (countPP p : ℚ) := by
      exact_mod_cast countTP_le_countPP y p
    have hpos : (0 : ℚ) < (countPP p : ℚ) := by
      have : 0 < countPP p := Nat.pos_of_ne_zero h
      exact_mod_cast this
    exact div_le_one_of_le₀ hle (le_of_lt hpos)

theorem recall_score_nonneg (y p : List Bool) : 0 ≤ recall_score y p := by
  unfold recall_score
  split
  · exact le_refl 0
  · positivity

theorem recall_score_le_one (y p : List Bool) : recall_score y p ≤ 1 := by
  unfold recall_score
  split
  · exact zero_le_one
  · rename_i h
    have hle : (countTP y p : ℚ) ≤ (countAP y : ℚ) := by
      exact_mod_cast countTP_le_countAP y p
    have hpos : (0 : ℚ) < (countAP y : ℚ) := by
      have : 0 < countAP y := Nat.pos_of_ne_zero h
      exact_mod_cast this
    exact div_le_one_of_le₀ hle (le_of_lt hpos)

theorem listMean_nonneg (l : List ℚ) (h : ∀ x ∈ l, 0 ≤ x) : 0 ≤ listMean l := by
  unfold listMean
  have hs : 0 ≤ l.sum := List.sum_nonneg h
  positivity

theorem listMean_le_one (l : List ℚ) (hne : l ≠ []) (h : ∀ x ∈ l, x ≤ 1) :
    listMean l ≤ 1 := by
  unfold listMean
  have hlen : 0 < l.length := List.length_pos.mpr hne
  have hlenQ : (0 : ℚ) < (l.length : ℚ) := by exact_mod_cast hlen
  have hs : l.sum ≤ (l.length : ℚ) := by
    have := List.sum_le_card_nsmul l 1 h
    simpa using this
  rw [div_le_one hlenQ]
  exact hs

theorem objectiveReturn_nonneg (folds : List FoldEval) : 0 ≤ objectiveReturn folds := by
  apply listMean_nonneg
  intro x hx
  rcases List.mem_append.mp hx with hx | hx <;>
    · rcases List.mem_map.mp hx with ⟨f, _, rfl⟩
      exact precision_score_nonneg _ _

theorem objectiveReturn_le_one (folds : List FoldEval) (hne : folds ≠ []) :
    objectiveReturn folds ≤ 1 := by
  apply listMean_le_one
  · intro hcat
    rcases List.append_eq_nil.mp hcat with ⟨h1, _⟩
    exact hne (List.map_eq_nil_iff.mp h1)
  · intro x hx
    rcases List.mem_append.mp hx with hx | hx <;>
      · rcases List.mem_map.mp hx with ⟨f, _, rfl⟩
        exact precision_score_le_one _ _

theorem sum_map_half_add {α : Type} (g h : α → ℚ) (l : List α) :
    (l.map (fun f => (g f + h f) / 2)).sum = ((l.map g).sum + (l.map h).sum) / 2 := by
  induction l with
  | nil => simp
  | cons x xs ih =>
    simp only [List.map_cons, List.sum_cons, ih]
    ring

/-- Claim C5: the value returned by `IC50Predictor.objective`, the mean of the
concatenated per-fold precision lists `np.mean(scores_dat + scores_net)`,
equals `(1/k) * Σ_i (a_i + b_i)/2` (the mean over the `k` folds of the average
of the two per-target precisions), and lies in `[0, 1]`. -/
theorem objective_score_is_mean_of_fold_averages (folds : List FoldEval)
    (hne : folds ≠ []) :
    objectiveReturn folds =
      (1 / (folds.length : ℚ)) *
        (folds.map (fun f => (foldScoreDat f + foldScoreNet f) / 2)).sum ∧
    0 ≤ objectiveReturn folds ∧ objectiveReturn folds ≤ 1 := by
  refine ⟨?_, objectiveReturn_nonneg folds, objectiveReturn_le_one folds hne⟩
  unfold objectiveReturn listMean
  rw [sum_map_half_add, List.sum_append]
  have hlen : ((folds.map foldScoreDat ++ folds.map foldScoreNet).length : ℚ) =
      2 * (folds.length : ℚ) := by
    push_cast [List.length_append, List.length_map]
    ring
  rw [hlen]
  rw [one_div, inv_mul_eq_div, div_div]

/-- Concrete instance of `objective_score_is_mean_of_fold_averages`: a single
fold with a correct positive prediction for both targets scores 1. -/
theorem objective_score_mean_witness :
    objectiveReturn [⟨[true], [true], [1], [1]⟩] =
      (1 / (([⟨[true], [true], [1], [1]⟩] : List FoldEval).length : ℚ)) *
        (([⟨[true], [true], [1], [1]⟩] : List FoldEval).map
          (fun f => (foldScoreDat f + foldScoreNet f) / 2)).sum ∧
    0 ≤ objectiveReturn [⟨[true], [true], [1], [1]⟩] ∧
    objectiveReturn [⟨[true], [true], [1], [1]⟩] ≤ 1 :=
  objective_score_is_mean_of_fold_averages [⟨[true], [true], [1], [1]⟩] (by simp)

/-- Claim C8: in `IC50Predictor.objective`, a fold whose thresholded
predictions contain zero positive predictions for a target — either the DAT
precision call at line 69 or the NET precision call at line 70 — gets
per-target precision 0 for that fold (sklearn's zero-division handling
returns 0 rather than raising), and the overall scoring still completes with
a score in `[0, 1]`. -/
theorem zero_positive_fold_scores_zero (folds : List FoldEval) (f : FoldEval)
    (hmem : f ∈ folds) :
    (countPP (threshold05 f.predProbDat) = 0 → foldScoreDat f = 0) ∧
    (countPP (threshold05 f.predProbNet) = 0 → foldScoreNet f = 0) ∧
    0 ≤ objectiveReturn folds ∧ objectiveReturn folds ≤ 1 := by
  refine ⟨?_, ?_, objectiveReturn_nonneg folds,
    objectiveReturn_le_one folds (List.ne_nil_of_mem hmem)⟩
  · intro h0
    unfold foldScoreDat precision_score
    rw [if_pos h0]
  · intro h0
    unfold foldScoreNet precision_score
    rw [if_pos h0]

/-- Concrete instance of `zero_positive_fold_scores_zero`: a fold whose DAT
and NET probability columns are both entirely below the 0.5 threshold. -/
theorem zero_positive_fold_witness :
    (countPP (threshold05 (⟨[true], [true], [0], [0]⟩ : FoldEval).predProbDat) = 0 →
      foldScoreDat ⟨[true], [true], [0], [0]⟩ = 0) ∧
    (countPP (threshold05 (⟨[true], [true], [0], [0]⟩ : FoldEval).predProbNet) = 0 →
      foldScoreNet ⟨[true], [true], [0], [0]⟩ = 0) ∧
    0 ≤ objectiveReturn [⟨[true], [true], [0], [0]⟩] ∧
    objectiveReturn [⟨[true], [true], [0], [0]⟩] ≤ 1 :=
  zero_positive_fold_scores_zero [⟨[true], [true], [0], [0]⟩]
    ⟨[true], [true], [0], [0]⟩ (by simp)

/- ## Model construction and the fold loop (`IC50Predictor.objective`, lines 50-64)

`model = self.create_model(**params)` runs once, before the fold loop; each
iteration then calls `model.fit(...)` on the same Keras model object, which
continues training it in place.  The Keras model and its `fit` call are
external, so they are parameters: `create_model` is the freshly constructed
untrained model for the trial's config, and `keras_fit` maps a model state and
one fold's training data to the model state after that fold's `fit` call. -/

/-- The model states at which each fold iteration's `model.fit` call begins:
the first fold starts from the freshly constructed model and every later fold
starts from the state left behind by the previous fold's `fit`. -/
def objective_fold_entry_states {M D : Type} (create_model : M)
    (keras_fit : M → D → M) (folds : List D) : List M :=
  (List.scanl keras_fit create_model folds).dropLast

/-- Claim C1 evaluated at a failing input: instantiating the opaque `fit` with
a fit-call counter on two folds, the second fold's `fit` begins at model
state 1 (the state produced by the first fold's `fit`), not at the freshly
constructed model state 0 — fitted parameters carry over between folds because
the model is constructed once, before the fold loop. -/
theorem objective_model_not_fresh_per_fold :
    objective_fold_entry_states (0 : Nat) (fun m _ => m + 1) [(), ()] = [0, 1] ∧
    (1 : Nat) ≠ 0 := by
  constructor
  · rfl
  · decide

/- ## The scaler in `IC50Predictor.__init__` (lines 28-32) and `predict` (line 181)

A single `StandardScaler` instance is used for both targets.  Its fitted
statistics are abstracted by their provenance: the dataset they were fit on
(`none` before any fit).  `fit_transform(X)` replaces the statistics with ones
fit on `X`; `transform` uses the current statistics without changing them. -/

/-- `StandardScaler()`: no statistics fitted yet. -/
def standard_scaler_empty {D : Type} : Option D := none

/-- The statistics state after `scaler.fit_transform(x)` (or `fit`): the old
statistics are replaced by statistics fit on `x`. -/
def scaler_fit {D : Type} (_stats : Option D) (x : D) : Option D :=
  some x

/-- The statistics `scaler.transform` uses: the currently fitted ones. -/
def scaler_transform_stats {D : Type} (stats : Option D) : Option D :=
  stats

/-- Result of the scaler lines of `IC50Predictor.__init__`: the scaler's final
statistics state, and the statistics each test-split `transform` call used. -/
structure InitScalerTrace (D : Type) where
  scaler : Option D
  stats_for_test_dat : Option D
  stats_for_test_net : Option D
deriving DecidableEq

/-- Lines 28-32 of `IC50Predictor.__init__` in order: construct one scaler,
`fit_transform` on DAT training data, `transform` the DAT test data,
`fit_transform` on NET training data, `transform` the NET test data. -/
def ic50_init_scaler {D : Type} (train_data_dat train_data_net : D) :
    InitScalerTrace D :=
  let s0 := @standard_scaler_empty D
  let s1 := scaler_fit s0 train_data_dat
  let used_dat := scaler_transform_stats s1
  let s2 := scaler_fit s1 train_data_net
  let used_net := scaler_transform_stats s2
  { scaler := s2, stats_for_test_dat := used_dat, stats_for_test_net := used_net }

/-- The statistics `IC50Predictor.predict` (line 181,
`self.scaler.transform(input_data)`) applies to any inference input; the same
state is used by `evaluate_on_external_data` (line 314). -/
def predict_scaler_stats {D : Type} (t : InitScalerTrace D) : Option D :=
  scaler_transform_stats t.scaler

/-- Claim C2 evaluated at a failing input: with distinct DAT and NET training
sets (tagged 0 and 1), after `__init__` the single scaler holds statistics fit
on NET training data, so `predict` scales every inference input — including
Target-A inputs — with Target-B's statistics, which differ from the frozen
DAT statistics that scaled the DAT test split. -/
theorem predict_scales_with_net_statistics :
    predict_scaler_stats (ic50_init_scaler (0 : Nat) 1) = some 1 ∧
    (ic50_init_scaler (0 : Nat) 1).stats_for_test_dat = some 0 ∧
    predict_scaler_stats (ic50_init_scaler (0 : Nat) 1) ≠
      (ic50_init_scaler (0 : Nat) 1).stats_for_test_dat := by
  refine ⟨rfl, rfl, ?_⟩
  decide

/- ## Scoring used by the two search strategies

`IC50Predictor.objective` (lines 52-74) computes, per fold and per target,
`precision_score` on a one-column binary label vector against a one-column
thresholded prediction vector.  `IC50Predictor.grid_search_optimize`
(lines 86-101) instead passes `scoring=precision` to `GridSearchCV` and fits
on `np.column_stack((train_labels_dat, train_labels_net))`, a two-column label
matrix; sklearn's precision scorer with its default binary average rejects a
multilabel-indicator target. -/

/-- A label/prediction array as sklearn's metric functions see it: a single
binary column, or the two-column (multilabel-indicator) matrix built by
`np.column_stack`. -/
inductive YArray
  | binaryCol (ys : List Bool)
  | twoCol (ys : List (Bool × Bool))
deriving DecidableEq

/-- `sklearn.metrics.precision_score` with the default `average=binary`:
defined on binary column pairs, raises on a multilabel-indicator target. -/
def sklearn_precision_binary_avg : YArray → YArray → Except String ℚ
  | YArray.binaryCol y, YArray.binaryCol p => Except.ok (precision_score y p)
  | _, _ => Except.error "Target is multilabel-indicator but average is binary"

/-- The per-fold DAT precision call of `IC50Predictor.objective` (line 69):
binary held-out labels against the thresholded predicted-probability column. -/
def objective_fold_precision_dat (yValDat : List Bool) (predProbDat : List ℚ) :
    Except String ℚ :=
  sklearn_precision_binary_avg (YArray.binaryCol yValDat)
    (YArray.binaryCol (threshold05 predProbDat))

/-- The per-fold scoring `GridSearchCV(..., scoring=precision)` applies in
`grid_search_optimize`: the held-out slice of the two-column stacked label
matrix (line 96) against the estimator's two-column prediction. -/
def grid_fold_precision (yVal : List (Bool × Bool)) (pred : List (Bool × Bool)) :
    Except String ℚ :=
  sklearn_precision_binary_avg (YArray.twoCol yVal) (YArray.twoCol pred)

/-- `random_state=42` of the `StratifiedKFold` in `objective` (line 52). -/
def objective_random_state : Nat := 42

/-- `random_state=42` of the `StratifiedKFold` in `grid_search_optimize`
(line 94). -/
def grid_search_random_state : Nat := 42

/-- Claim C3 settled against the code: the two strategies do share the fold
seed (both 42), but not the scoring definition: the objective's per-target
binary precision succeeds (e.g. scoring 1 on a correct positive prediction),
while the grid search's `scoring=precision` applied to the two-column label
matrix it is fitted with is an error for every input, so the two strategies do
not compute the score by the same function of the data. -/
theorem grid_scoring_diverges_from_objective :
    objective_random_state = grid_search_random_state ∧
    objective_fold_precision_dat [true] [1] = Except.ok 1 ∧
    ∀ (yVal pred : List (Bool × Bool)),
      ∃ msg, grid_fold_precision yVal pred = Except.error msg := by
  refine ⟨rfl, ?_, ?_⟩
  · show Except.ok (precision_score [true] (threshold05 [1])) = Except.ok 1
    have h : threshold05 [1] = [true] := by
      norm_num [threshold05]
    rw [h]
    norm_num [precision_score, countPP, countTP, List.countP, List.countP.go]
  · intro yVal pred
    exact ⟨_, rfl⟩

/- ## Data loading (`load_data_dat` lines 406-423, `load_data_net` lines 425-442)

The ChEMBL web client and the descriptor computation are external
collaborators, passed as parameters: `fetch_activities` yields the activity
rows the client's filtered query returns for a target id, and `compute_desc`
is `compute_descriptors` (returns `none` for an unparseable structure). -/

/-- One row of the activity dataframe: its SMILES string and its
`standard_value` (the raw IC50 measurement; `none` when missing). -/
structure ActivityRow where
  canonical_smiles : String
  standard_value : Option ℚ
deriving DecidableEq

/-- The loader body shared by `load_data_dat` and `load_data_net`:
drop rows with a missing `standard_value`
(`df = df[df.standard_value.notna()]`), then for each remaining row append its
descriptors and append `row[standard_value]` to the label list, skipping rows
whose descriptors are `None`. -/
def load_rows (compute_desc : String → Option (List ℚ))
    (rows : List ActivityRow) : List (List ℚ) × List ℚ :=
  (rows.filter (fun r => r.standard_value.isSome)).foldl
    (fun acc r =>
      match compute_desc r.canonical_smiles with
      | some d => (acc.1 ++ [d], acc.2 ++ [r.standard_value.getD 0])
      | none => acc)
    ([], [])

/-- `load_data_dat`: the DAT loader, querying the client for CHEMBL238. -/
def load_data_dat (fetch_activities : String → List ActivityRow)
    (compute_desc : String → Option (List ℚ)) : List (List ℚ) × List ℚ :=
  load_rows compute_desc (fetch_activities "CHEMBL238")

/-- `load_data_net`: the NET loader, querying the client for CHEMBL228. -/
def load_data_net (fetch_activities : String → List ActivityRow)
    (compute_desc : String → Option (List ℚ)) : List (List ℚ) × List ℚ :=
  load_rows compute_desc (fetch_activities "CHEMBL228")

/-- A label vector is binary when every entry is one of exactly two classes. -/
def isBinaryLabels (labels : List ℚ) : Prop :=
  ∃ a b : ℚ, ∀ x ∈ labels, x = a ∨ x = b

/-- Claim C4 evaluated at a failing input: on activity rows whose raw IC50
`standard_value`s are 1, 5 and 100 (all parseable), `load_data_dat` returns
exactly those continuous values as the label vector, and that vector is not
binary: the loaders never threshold or binarize the activity values. -/
theorem load_data_dat_labels_not_binary :
    (load_data_dat
        (fun _ => [⟨"CCO", some 1⟩, ⟨"CCN", some 5⟩, ⟨"CCC", some 100⟩])
        (fun _ => some [0])).2 = [1, 5, 100] ∧
    ¬ isBinaryLabels [1, 5, 100] := by
  constructor
  · rfl
  · rintro ⟨a, b, h⟩
    have h1 := h 1 (by simp)
    have h5 := h 5 (by simp)
    have h100 := h 100 (by simp)
    rcases h1 with h1 | h1 <;> rcases h5 with h5 | h5 <;>
      rcases h100 with h100 | h100 <;> subst_vars <;> norm_num at *

/- ## The pipeline state (`IC50Predictor` instance fields)

The fields assigned in `__init__` that the search, training and evaluation
methods read, plus the mutable `self.model` slot.  Feature matrices are lists
of descriptor rows, labels are boolean vectors, the trained Keras model is an
opaque type parameter `M`. -/

/-- The `IC50Predictor` instance fields used by `objective`,
`grid_search_optimize` and `train_and_evaluate`. -/
structure PredictorState (M : Type) where
  train_data_dat : List (List ℚ)
  train_data_scaled_dat : List (List ℚ)
  train_data_scaled_net : List (List ℚ)
  train_labels_dat : List Bool
  train_labels_net : List Bool
  test_data_scaled_dat : List (List ℚ)
  test_data_scaled_net : List (List ℚ)
  test_labels_dat : List Bool
  test_labels_net : List Bool
  model : Option M

/-- The instance fields the body of `IC50Predictor.objective` (lines 44-74)
reads: the four scaled-training/label fields sliced in the fold loop
(lines 55-59) plus `train_data_dat`, whose column count `create_model`
(line 36) reads for the input shape.  No test field appears in the body. -/
def objectiveDataRead {M : Type} (s : PredictorState M) :
    List (List ℚ) × List (List ℚ) × List Bool × List (List ℚ) × List Bool :=
  (s.train_data_dat, s.train_data_scaled_dat, s.train_labels_dat,
    s.train_data_scaled_net, s.train_labels_net)

/-- `np.column_stack` of two label vectors: the two-column label matrix. -/
def column_stack {α β : Type} (a : List α) (b : List β) : List (α × β) :=
  a.zip b

/-- The feature argument of the `self.model.fit` call in `train_and_evaluate`
(line 105): row-concatenation of the two scaled training matrices. -/
def train_fit_x {M : Type} (s : PredictorState M) : List (List ℚ) :=
  s.train_data_scaled_dat ++ s.train_data_scaled_net

/-- The label argument of the `self.model.fit` call in `train_and_evaluate`
(line 106): the stacked two-column training label matrix. -/
def train_fit_y {M : Type} (s : PredictorState M) : List (Bool × Bool) :=
  column_stack s.train_labels_dat s.train_labels_net

/-- The feature argument of `grid_search.fit` in `grid_search_optimize`
(line 95). -/
def grid_fit_x {M : Type} (s : PredictorState M) : List (List ℚ) :=
  s.train_data_scaled_dat ++ s.train_data_scaled_net

/-- The label argument of `grid_search.fit` in `grid_search_optimize`
(line 96). -/
def grid_fit_y {M : Type} (s : PredictorState M) : List (Bool × Bool) :=
  column_stack s.train_labels_dat s.train_labels_net

/-- The only assignment to instance state in `train_and_evaluate`'s training
phase (line 104): `self.model = self.create_model(**best_params)` followed by
the in-place fit; every other instance field is left as it was. -/
def train_and_evaluate_setModel {M : Type} (s : PredictorState M) (m : M) :
    PredictorState M :=
  { s with model := some m }

/-- Two states agree on the training split (all train fields equal). -/
def sameTrainSplit {M : Type} (s t : PredictorState M) : Prop :=
  s.train_data_dat = t.train_data_dat ∧
  s.train_data_scaled_dat = t.train_data_scaled_dat ∧
  s.train_data_scaled_net = t.train_data_scaled_net ∧
  s.train_labels_dat = t.train_labels_dat ∧
  s.train_labels_net = t.train_labels_net

/-- Two states agree on the held-out test split (all test fields equal). -/
def sameTestSplit {M : Type} (s t : PredictorState M) : Prop :=
  s.test_data_scaled_dat = t.test_data_scaled_dat ∧
  s.test_data_scaled_net = t.test_data_scaled_net ∧
  s.test_labels_dat = t.test_labels_dat ∧
  s.test_labels_net = t.test_labels_net

/-- Claim C6: the data consumed by hyperparameter search (`objective` and the
`grid_search.fit` call) and by the final training `fit` call is a function of
the training fields only — two states agreeing on the training split, however
their test splits differ, feed identical inputs to all of them — and the final
training step writes only the model slot, leaving the test split unchanged. -/
theorem search_and_training_leave_test_split_alone {M : Type}
    (s t : PredictorState M) (h : sameTrainSplit s t) :
    objectiveDataRead s = objectiveDataRead t ∧
    train_fit_x s = train_fit_x t ∧ train_fit_y s = train_fit_y t ∧
    grid_fit_x s = grid_fit_x t ∧ grid_fit_y s = grid_fit_y t ∧
    ∀ m : M, sameTestSplit (train_and_evaluate_setModel s m) s := by
  obtain ⟨h1, h2, h3, h4, h5⟩ := h
  refine ⟨?_, ?_, ?_, ?_, ?_, ?_⟩
  · simp [objectiveDataRead, h1, h2, h3, h4, h5]
  · simp [train_fit_x, h2, h3]
  · simp [train_fit_y, h4, h5]
  · simp [grid_fit_x, h2, h3]
  · simp [grid_fit_y, h4, h5]
  · intro m
    exact ⟨rfl, rfl, rfl, rfl⟩

/-- Concrete instance of `search_and_training_leave_test_split_alone`: two
states with the same training split but different test labels yield identical
search and fit inputs. -/
theorem search_inputs_ignore_test_witness :
    objectiveDataRead
        (⟨[[1]], [[1]], [[2]], [true], [false], [[3]], [[4]], [true], [true],
          none⟩ : PredictorState Unit) =
      objectiveDataRead
        (⟨[[1]], [[1]], [[2]], [true], [false], [[9]], [[9]], [false], [false],
          none⟩ : PredictorState Unit) ∧
    train_fit_x
        (⟨[[1]], [[1]], [[2]], [true], [false], [[3]], [[4]], [true], [true],
          none⟩ : PredictorState Unit) =
      train_fit_x
        (⟨[[1]], [[1]], [[2]], [true], [false], [[9]], [[9]], [false], [false],
          none⟩ : PredictorState Unit) ∧
    train_fit_y
        (⟨[[1]], [[1]], [[2]], [true], [false], [[3]], [[4]], [true], [true],
          none⟩ : PredictorState Unit) =
      train_fit_y
        (⟨[[1]], [[1]], [[2]], [true], [false], [[9]], [[9]], [false], [false],
          none⟩ : PredictorState Unit) ∧
    grid_fit_x
        (⟨[[1]], [[1]], [[2]], [true], [false], [[3]], [[4]], [true], [true],
          none⟩ : PredictorState Unit) =
      grid_fit_x
        (⟨[[1]], [[1]], [[2]], [true], [false], [[9]], [[9]], [false], [false],
          none⟩ : PredictorState Unit) ∧
    grid_fit_y
        (⟨[[1]], [[1]], [[2]], [true], [false], [[3]], [[4]], [true], [true],
          none⟩ : PredictorState Unit) =
      grid_fit_y
        (⟨[[1]], [[1]], [[2]], [true], [false], [[9]], [[9]], [false], [false],
          none⟩ : PredictorState Unit) ∧
    ∀ m : Unit,
      sameTestSplit
        (train_and_evaluate_setModel
          (⟨[[1]], [[1]], [[2]], [true], [false], [[3]], [[4]], [true], [true],
            none⟩ : PredictorState Unit) m)
        (⟨[[1]], [[1]], [[2]], [true], [false], [[3]], [[4]], [true], [true],
          none⟩ : PredictorState Unit) :=
  search_and_training_leave_test_split_alone
    (⟨[[1]], [[1]], [[2]], [true], [false], [[3]], [[4]], [true], [true],
      none⟩ : PredictorState Unit)
    (⟨[[1]], [[1]], [[2]], [true], [false], [[9]], [[9]], [false], [false],
      none⟩ : PredictorState Unit)
    ⟨rfl, rfl, rfl, rfl, rfl⟩

/- ## Untrained-model behaviour (`predict` line 177, `evaluate_on_external_data`
line 313, `compare_models` line 205)

`predict` explicitly checks `self.model is None` and raises
`ValueError("Model is not trained. ...")`.  The other two methods perform no
check: with `self.model` still `None`, the attribute access
`self.model.predict` fails with Python's untyped
`AttributeError: NoneType object has no attribute predict`. -/

/-- The Python exceptions these paths can produce: the deliberately raised
`ValueError` guard, or the `AttributeError` from dereferencing `None`. -/
inductive PyError
  | valueError (msg : String)
  | attributeError (msg : String)
deriving DecidableEq

/-- `IC50Predictor.predict` (lines 177-182): guard on `self.model is None`,
otherwise scale the input with the current scaler and predict. -/
def predict_meth {M : Type} (keras_predict : M → List (List ℚ) → List (List ℚ))
    (scaler_transform : List (List ℚ) → List (List ℚ))
    (s : PredictorState M) (input_data : List (List ℚ)) :
    Except PyError (List (List ℚ)) :=
  match s.model with
  | none => Except.error
      (PyError.valueError "Model is not trained. Please train the model first.")
  | some m => Except.ok (keras_predict m (scaler_transform input_data))

/-- `IC50Predictor.evaluate_on_external_data` (lines 313-318): scales the
external data, then calls `self.model.predict` with no None-check; on an
untrained instance the attribute access on `None` is an `AttributeError`.
Returns the two thresholded class columns. -/
def evaluate_on_external_data_meth {M : Type}
    (keras_predict : M → List (List ℚ) → List (List ℚ))
    (scaler_transform : List (List ℚ) → List (List ℚ))
    (s : PredictorState M) (external_data : List (List ℚ)) :
    Except PyError (List Bool × List Bool) :=
  let scaled := scaler_transform external_data
  match s.model with
  | none => Except.error
      (PyError.attributeError "NoneType object has no attribute predict")
  | some m =>
      Except.ok
        (threshold05 ((keras_predict m scaled).map (fun r => r.getD 0 0)),
         threshold05 ((keras_predict m scaled).map (fun r => r.getD 1 0)))

/-- `IC50Predictor.compare_models` (lines 205-259): trains the random-forest
baseline, then reads `self.model.predict` (line 218) with no None-check; on an
untrained instance that access is an `AttributeError`.  Returns the neural
model's two test-set probability columns it compares against. -/
def compare_models_meth {M : Type}
    (keras_predict : M → List (List ℚ) → List (List ℚ))
    (s : PredictorState M) :
    Except PyError (List ℚ × List ℚ) :=
  match s.model with
  | none => Except.error
      (PyError.attributeError "NoneType object has no attribute predict")
  | some m =>
      Except.ok
        ((keras_predict m s.test_data_scaled_dat).map (fun r => r.getD 0 0),
         (keras_predict m s.test_data_scaled_net).map (fun r => r.getD 1 0))

/-- Claim C7 evaluated at a failing input: on an untrained pipeline instance
(`model = none`), `predict` fails with the deliberately raised `ValueError`
guard, but `evaluate_on_external_data` and `compare_models` fail with the
untyped `AttributeError` from dereferencing the absent model — a different
error than the typed guard — so the three methods do not raise one typed
untrained-model error alike. -/
theorem untrained_model_errors_untyped :
    predict_meth (fun _ d => d) id
        (⟨[], [], [], [], [], [], [], [], [], none⟩ : PredictorState Unit) [[0]] =
      Except.error
        (PyError.valueError "Model is not trained. Please train the model first.") ∧
    evaluate_on_external_data_meth (fun _ d => d) id
        (⟨[], [], [], [], [], [], [], [], [], none⟩ : PredictorState Unit) [[0]] =
      Except.error
        (PyError.attributeError "NoneType object has no attribute predict") ∧
    compare_models_meth (fun _ d => d)
        (⟨[], [], [], [], [], [], [], [], [], none⟩ : PredictorState Unit) =
      Except.error
        (PyError.attributeError "NoneType object has no attribute predict") ∧
    PyError.attributeError "NoneType object has no attribute predict" ≠
      PyError.valueError "Model is not trained. Please train the model first." := by
  refine ⟨rfl, rfl, rfl, ?_⟩
  intro h
  exact PyError.noConfusion h

/- ## F1 computation (`compare_models` lines 247-259,
`evaluate_on_external_data` lines 322-326)

`f1 = 2 * (precision * recall) / (precision + recall)` is computed on the
numpy float64 scalars returned by the sklearn metric calls.  Numpy float
division is total: `0.0 / 0.0` evaluates to `nan` (with a runtime warning) and
`x / 0.0` for `x ≠ 0` to `inf`; neither raises an exception. -/

/-- A numpy float64 scalar value as far as these formulas need: an exact
rational, `nan`, or `inf`. -/
inductive NpFloat
  | nan
  | inf
  | val (q : ℚ)
deriving DecidableEq

/-- Numpy float64 division of two exact values: `0/0` is `nan`, `x/0` with
`x ≠ 0` is `inf` (the operands here are nonnegative), otherwise exact. -/
def npDivQ (a b : ℚ) : NpFloat :=
  if b = 0 then (if a = 0 then NpFloat.nan else NpFloat.inf)
  else NpFloat.val (a / b)

/-- The F1 formula as written at lines 247, 251, 255, 259, 322 and 326:
`2 * (precision * recall) / (precision + recall)` under numpy float
division. -/
def f1_formula (p r : ℚ) : NpFloat :=
  npDivQ (2 * (p * r)) (p + r)

/-- The DAT F1 value `evaluate_on_external_data` computes (lines 320-322) from
the external labels and the thresholded DAT prediction column; the
`compare_models` F1 lines (247-259) apply the identical formula to the same
metric calls on the test split. -/
def external_f1_dat (yTrue yPredClasses : List Bool) : NpFloat :=
  f1_formula (precision_score yTrue yPredClasses) (recall_score yTrue yPredClasses)

/-- Claim C9: for every label vector and prediction vector, the F1 computation
is a defined numpy value, never an exception and never an infinity: it is `nan`
exactly when precision and recall are both zero (the zero-denominator case,
where numpy yields `nan` with a warning rather than crashing), and an exact
rational value otherwise. -/
theorem f1_defined_or_nan (yTrue yPredClasses : List Bool) :
    external_f1_dat yTrue yPredClasses ≠ NpFloat.inf ∧
    (external_f1_dat yTrue yPredClasses = NpFloat.nan ↔
      precision_score yTrue yPredClasses + recall_score yTrue yPredClasses = 0) ∧
    (precision_score yTrue yPredClasses + recall_score yTrue yPredClasses ≠ 0 →
      ∃ q : ℚ, external_f1_dat yTrue yPredClasses = NpFloat.val q) := by
  have hp := precision_score_nonneg yTrue yPredClasses
  have hr := recall_score_nonneg yTrue yPredClasses
  unfold external_f1_dat f1_formula npDivQ
  by_cases hden : precision_score yTrue yPredClasses +
      recall_score yTrue yPredClasses = 0
  · have hp0 : precision_score yTrue yPredClasses = 0 := by linarith
    have hr0 : recall_score yTrue yPredClasses = 0 := by linarith
    rw [if_pos hden, if_pos (by rw [hp0, hr0]; ring)]
    refine ⟨NpFloat.noConfusion, ⟨fun _ => hden, fun _ => rfl⟩, fun hne => absurd hden hne⟩
  · rw [if_neg hden]
    exact ⟨NpFloat.noConfusion, ⟨fun h => NpFloat.noConfusion h, fun h => absurd h hden⟩,
      fun _ => ⟨_, rfl⟩⟩

/- ## Fold indexing of the NET arrays (`objective` lines 55-59)

The fold indices come from `kf.split(self.train_data_scaled_dat,
self.train_labels_dat)` — so every index is a row index of the DAT training
arrays — and the same `train_index` / `val_index` are then used to slice
`self.train_data_scaled_net` and `self.train_labels_net`.  Numpy fancy
indexing raises `IndexError` when an index is out of bounds. -/

/-- Numpy fancy indexing `xs[idx]`: the selected rows when every index is in
bounds, `none` (an `IndexError`) otherwise. -/
def np_take {α : Type} (xs : List α) (idx : List Nat) : Option (List α) :=
  if idx.all (fun i => i < xs.length) then
    some (idx.filterMap (fun i => xs[i]?))
  else none

/-- Lines 58-59 applied to one NET training array: select the fold's training
rows and validation rows with the DAT-derived index lists. -/
def fold_rows_net {α : Type} (train_net : List α)
    (train_index val_index : List Nat) : Option (List α × List α) :=
  match np_take train_net train_index, np_take train_net val_index with
  | some a, some b => some (a, b)
  | _, _ => none

/-- Claim C10: fold indices are row indices of the DAT training arrays, so
slicing the NET training arrays with them succeeds whenever the NET training
split has at least as many rows as the DAT one; and for a shorter NET split
the indexing is out of bounds — concretely, a two-row DAT split can yield
validation index 1, which is out of bounds for a one-row NET array. -/
theorem fold_indexing_needs_net_at_least_dat {α β : Type}
    (train_dat : List β) (train_net : List α)
    (train_index val_index : List Nat)
    (hti : ∀ i ∈ train_index, i < train_dat.length)
    (hvi : ∀ i ∈ val_index, i < train_dat.length)
    (hlen : train_dat.length ≤ train_net.length) :
    (fold_rows_net train_net train_index val_index).isSome ∧
    fold_rows_net [[(0 : ℚ)]] [0] [1] = none := by
  constructor
  · have hsome : ∀ idx : List Nat, (∀ i ∈ idx, i < train_dat.length) →
        ∃ l, np_take train_net idx = some l := by
      intro idx hidx
      refine ⟨idx.filterMap (fun i => train_net[i]?), ?_⟩
      unfold np_take
      rw [if_pos]
      rw [List.all_eq_true]
      intro i hi
      exact decide_eq_true (lt_of_lt_of_le (hidx i hi) hlen)
    obtain ⟨l1, h1⟩ := hsome train_index hti
    obtain ⟨l2, h2⟩ := hsome val_index hvi
    unfold fold_rows_net
    rw [h1, h2]
    rfl
  · rfl

/-- Concrete instance of `fold_indexing_needs_net_at_least_dat`: with a NET
training split at least as long as the DAT one, the fold slicing of the NET
arrays succeeds, while the one-row NET array fails on validation index 1. -/
theorem fold_indexing_witness :
    (fold_rows_net [[(1 : ℚ)], [2]] [0] [1]).isSome ∧
    fold_rows_net [[(0 : ℚ)]] [0] [1] = none :=
  fold_indexing_needs_net_at_least_dat ([[(1 : ℚ)], [2]] : List (List ℚ))
    [[(1 : ℚ)], [2]] [0] [1]
    (by intro i hi; simp at hi; simp [hi])
    (by intro i hi; simp at hi; simp [hi])
    (by simp)
